import Mathlib

/-!
Verification development for the lottery automation bot (`bot.py`).

The Python source drives a browser session: it logs in (with CAPTCHA and
OTP sub-flows), then iterates over the selected lottery items, recording a
per-item result and computing a final verdict for the batch.  This file is
a shallow embedding of the control flow of that source.  Browser/network
effects are abstracted into explicit environment records whose fields
answer exactly the queries the code makes (element displayed?, message
text, reload succeeded?, per-item status label, per-item submission
outcome); everything else — loop structure, counters, early exits,
recorded result entries, final-status computation — is translated
literally from the code.

Conventions:
* Python `None`/empty-string falsiness on a text value is modelled by
  `Option String` plus an explicit emptiness test, matching each `if text:`.
* A raised `StopIteration` (user cancellation) is modelled by a dedicated
  constructor that propagates out of the loops, as the exception does.
* Japanese status literals are kept verbatim from the source.
-/

namespace PokemonBot

/-- `needle` is a prefix of `hay` (character lists). -/
def charsHavePre : List Char → List Char → Bool
  | [], _ => true
  | _ :: _, [] => false
  | c :: cs, d :: ds => c == d && charsHavePre cs ds

/-- `needle` occurs somewhere inside `hay` (character lists). -/
def charsContain (needle : List Char) : List Char → Bool
  | [] => charsHavePre needle []
  | c :: rest => charsHavePre needle (c :: rest) || charsContain needle rest

/-- Substring containment, modelling Python's `needle in hay`. -/
def strContains (hay needle : String) : Bool :=
  charsContain needle.data hay.data

/-- `bot.py` line 2487 area: the pop04 fatal-exception overlay text. -/
def exceptionText : String := "意図しない例外が発生しました。"

/-- `bot.py` line 2504: the pop05 session-timeout overlay text. -/
def timeoutText : String := "一定時間操作していなかったため、OKボタンタップして再度開けてください。"

/-! ### Popup recovery handler (`_check_and_handle_pop_exceptions`, lines 2483-2827)

The environment answers the queries the handler makes: whether pop05/pop04
is displayed at the initial check, the message text read there (`none`
models the `except` branch of the message read), and per reload attempt
`t` (1-based) whether the reload cascade succeeded, whether the overlay is
still displayed afterwards, and the message read then. -/

structure PopEnv where
  pop05Displayed : Bool
  pop05Msg : Option String
  pop04Displayed : Bool
  pop04Msg : Option String
  reload05Ok : Nat → Bool
  pop05DispAfter : Nat → Bool
  pop05MsgAfter : Nat → Option String
  reload04Ok : Nat → Bool
  pop04DispAfter : Nat → Bool
  pop04MsgAfter : Nat → Option String

/-- One overlay's reload loop (`while reload_attempt < max_reload_attempts`,
lines 2509-2631 for pop05 and 2676-2798 for pop04).  `t` is the attempt
number after the `reload_attempt += 1` at the top of the iteration; the
returned `Nat` counts iterations in which the reload cascade was executed.
Every iteration either returns or continues, so the fuel case `0` is
unreachable for a positive bound; it mirrors falling out of the `while`. -/
def handlerReloadLoop (reloadOk dispAfter : Nat → Bool)
    (msgAfter : Nat → Option String) (needle : String) (maxR : Nat) :
    Nat → Nat → Nat → Bool × Nat
  | 0, _, count => (false, count)
  | fuel + 1, t, count =>
    if reloadOk t then
      if dispAfter t then
        match msgAfter t with
        | none => (true, count + 1)
        | some m =>
          if strContains m needle then
            if t < maxR then
              handlerReloadLoop reloadOk dispAfter msgAfter needle maxR fuel (t + 1) (count + 1)
            else (true, count + 1)
          else (true, count + 1)
      else (true, count + 1)
    else
      if t < maxR then
        handlerReloadLoop reloadOk dispAfter msgAfter needle maxR fuel (t + 1) (count + 1)
      else (false, count + 1)

/-- `_check_and_handle_pop_exceptions(driver, wait, max_reload_attempts=5)`:
pop05 is checked first; only when it is not displayed is pop04 checked.
Returns (reloaded?, number of reload attempts performed). -/
def checkAndHandlePopExceptions (env : PopEnv) (maxReload : Nat := 5) : Bool × Nat :=
  if env.pop05Displayed then
    match env.pop05Msg with
    | none => (false, 0)
    | some m =>
      if strContains m timeoutText then
        handlerReloadLoop env.reload05Ok env.pop05DispAfter env.pop05MsgAfter
          timeoutText maxReload maxReload 1 0
      else (false, 0)
  else if env.pop04Displayed then
    match env.pop04Msg with
    | none => (false, 0)
    | some m =>
      if strContains m exceptionText then
        handlerReloadLoop env.reload04Ok env.pop04DispAfter env.pop04MsgAfter
          exceptionText maxReload maxReload 1 0
      else (false, 0)
  else (false, 0)

/-! ### The inline pop04 recovery loop inside `lottery_begin` (lines 1371-1622)

This is a separate copy of the recovery logic run right after login.
Line 1372 of the source sets `max_reload_attempts = 6` (its trailing
comment reads "changed from 6 to 5", and line 1375 says "reload up to 5
times").  The environment is indexed by iteration `t` (1-based): the
display/message check at the top of iteration `t`, and the re-check made
after the reload of iteration `t`. -/

structure BeginPopEnv where
  disp : Nat → Bool
  msg : Nat → Option String
  reloadOk : Nat → Bool
  dispAfter : Nat → Bool
  msgAfter : Nat → Option String

/-- The constant assigned at `bot.py` line 1372. -/
def beginPopMaxReloadAttempts : Nat := 6

/-- Iterations of the `while reload_attempt < max_reload_attempts` loop at
line 1377, returning the number of iterations in which the reload cascade
was executed.  All non-fatal branches `break`; reload-failure and
still-fatal-after-reload branches `continue` while attempts remain. -/
def lotteryBeginPopLoopGo (env : BeginPopEnv) : Nat → Nat → Nat → Nat
  | 0, _, count => count
  | fuel + 1, t, count =>
    if env.disp t then
      match env.msg t with
      | none => count
      | some m =>
        if strContains m exceptionText then
          if env.reloadOk t then
            if env.dispAfter t then
              match env.msgAfter t with
              | none => count + 1
              | some m2 =>
                if strContains m2 exceptionText then
                  if t < beginPopMaxReloadAttempts then
                    lotteryBeginPopLoopGo env fuel (t + 1) (count + 1)
                  else count + 1
                else count + 1
            else count + 1
          else
            if t < beginPopMaxReloadAttempts then
              lotteryBeginPopLoopGo env fuel (t + 1) (count + 1)
            else count + 1
        else count
    else count

/-- The whole inline recovery loop of `lottery_begin`: number of reload
attempts performed. -/
def lotteryBeginPopLoop (env : BeginPopEnv) : Nat :=
  lotteryBeginPopLoopGo env beginPopMaxReloadAttempts 1 0

/-! ### CAPTCHA solver (`solve_recaptcha`, lines 400-590) -/

/-- One response of the `createTask` endpoint as the code discriminates it:
network exception, JSON decode failure, `errorId != 0`, missing `taskId`,
or a task id. -/
inductive SubmitResp where
  | netError
  | badJson
  | errResp (code desc : String)
  | noTaskId
  | taskOk
  deriving DecidableEq, Repr

/-- One response of the `getTaskResult` endpoint as the code discriminates
it (lines 515-566): network exception, JSON failure, `status == "processing"`,
`status == "ready"` with or without a token, `errorId != 0`, or anything
else (which just lets the loop continue). -/
inductive PollResp where
  | netError
  | badJson
  | processing
  | ready (token : Option String)
  | errResp (code desc : String)
  | otherResp
  deriving DecidableEq, Repr

/-- Provider behaviour: the submission response per outer attempt, and the
poll response per (outer attempt, poll index `i` in `range(60)`). -/
structure SolveEnv where
  submit : Nat → SubmitResp
  poll : Nat → Nat → PollResp

/-- `max_retries` default of `solve_recaptcha`. -/
def solveMaxRetries : Nat := 5

/-- Outcome of the inner polling loop of one submission. -/
inductive PollOut where
  | solved (token : String) (polls : Nat)
  | fatal (msg : String) (polls : Nat)
  | breakRetry (polls : Nat)
  | exhausted (polls : Nat)
  deriving DecidableEq, Repr

/-- The `for i in range(60)` polling loop (lines 510-566).  Each iteration
posts to the result endpoint once; `polls` counts those posts.  `break`
paths map to `breakRetry`, the `for`-`else` (60 polls without an answer) to
`exhausted`. -/
def pollLoop (resp : Nat → PollResp) (attempt : Nat) : Nat → Nat → Nat → PollOut
  | 0, _, polls => .exhausted polls
  | fuel + 1, i, polls =>
    match resp i with
    | .netError => pollLoop resp attempt fuel (i + 1) (polls + 1)
    | .badJson => pollLoop resp attempt fuel (i + 1) (polls + 1)
    | .processing => pollLoop resp attempt fuel (i + 1) (polls + 1)
    | .otherResp => pollLoop resp attempt fuel (i + 1) (polls + 1)
    | .ready (some t) => .solved t (polls + 1)
    | .ready none => .fatal "No solution token in response" (polls + 1)
    | .errResp _ desc =>
      if attempt < solveMaxRetries then .breakRetry (polls + 1)
      else .fatal ("2captcha error: " ++ desc) (polls + 1)

/-- The `for attempt in range(1, max_retries + 1)` loop (lines 437-588).
Returns the solver outcome together with the total number of result-endpoint
polls performed across all attempts. -/
def solveLoop (env : SolveEnv) : Nat → Nat → Nat → Except String String × Nat
  | 0, _, polls => (.error "CAPTCHA solving failed after all retries", polls)
  | fuel + 1, attempt, polls =>
    match env.submit attempt with
    | .netError =>
      if attempt < solveMaxRetries then solveLoop env fuel (attempt + 1) polls
      else (.error "Network error", polls)
    | .badJson => (.error "Invalid JSON response", polls)
    | .errResp code desc =>
      if attempt < solveMaxRetries then solveLoop env fuel (attempt + 1) polls
      else (.error ("2captcha error (" ++ code ++ "): " ++ desc), polls)
    | .noTaskId => (.error "No taskId in response", polls)
    | .taskOk =>
      match pollLoop (env.poll attempt) attempt 60 0 0 with
      | .solved t p => (.ok t, polls + p)
      | .fatal m p => (.error m, polls + p)
      | .breakRetry p => solveLoop env fuel (attempt + 1) (polls + p)
      | .exhausted p =>
        if attempt < solveMaxRetries then solveLoop env fuel (attempt + 1) (polls + p)
        else (.error "CAPTCHA timeout after all retries", polls + p)

/-- Lines 412-431 of `solve_recaptcha`: the API-key check, the site-key
check (`not site_key or len(site_key) < 20`), and the `min_score`
normalisation (`if min_score not in [0.3, 0.7, 0.9]: min_score = 0.9`).
Returns the `min_score` actually used in the task payloads. -/
def solveSetup (apiKeySet : Bool) (siteKey : String) (minScore : ℚ) : Except String ℚ :=
  if ¬apiKeySet then .error "CAPTCHA_API_KEY is not set"
  else if siteKey = "" ∨ siteKey.length < 20 then .error "Invalid site key"
  else .ok (if minScore = 0.3 ∨ minScore = 0.7 ∨ minScore = 0.9 then minScore else 0.9)

/-- `solve_recaptcha` with default `max_retries=5`: validation followed by
the retry loop.  The returned `Nat` is the total number of result-endpoint
polls performed. -/
def solveRecaptcha (apiKeySet : Bool) (siteKey : String) (minScore : ℚ)
    (env : SolveEnv) : Except String String × Nat :=
  match solveSetup apiKeySet siteKey minScore with
  | .error e => (.error e, 0)
  | .ok _ => solveLoop env solveMaxRetries 1 0

/-! ### Lottery orchestrator (`_process_all_lotteries`, lines 1998-2481)

Data model of the recorded per-item results and the batch outcome. -/

/-- One entry of `lottery_results`: `{'lottery': n, 'status': s, 'reason': r}`. -/
structure LotteryResult where
  lottery : Nat
  status : String
  reason : String
  deriving DecidableEq, Repr

/-- The dict returned by `lottery_begin` / `_process_all_lotteries`. -/
structure SessionOutcome where
  results : List LotteryResult
  finalStatus : String
  message : String
  deriving DecidableEq, Repr

/-- Observable outcome of `_process_lottery_entry` for one item: the
distinguished `'reload_needed'` value, `True`, `False`, an exception that is
caught and recorded as a failure (line 2225), or a `StopIteration` that is
recorded as 中断 and re-raised (line 2217). -/
inductive EntryResult where
  | reloadNeeded
  | ok
  | failed
  | errored (msg : String)
  | stopped
  deriving DecidableEq, Repr

/-- Environment of one pass of the outer retry loop.  A status query
returns `(status_text, exists)` exactly as `_check_lottery_status` does;
`status` is the in-pass check (line 2097), `verify` the re-verification
loop (line 2288), `fv1` the final verification inside the all-completed
branch (line 2316), `fv2` the final verification after the status
determination (line 2439).  `popAfterEntry` is the result of
`_check_and_handle_pop_exceptions` called right after processing an open
item. -/
structure PassEnv where
  status : Nat → Option String × Bool
  entry : Nat → EntryResult
  popAfterEntry : Nat → Bool
  verify : Nat → Option String × Bool
  fv1 : Nat → Option String × Bool
  fv2 : Nat → Option String × Bool

/-- Result entries as built by the source (f-strings at lines 2102-2106,
2121-2125, 2133-2137, 2163-2167, 2187-2191, 2219-2223, 2227-2231,
2259-2263). -/
def notExistRec (n : Nat) : LotteryResult :=
  ⟨n, "存在しない", "抽選" ++ toString n ++ "は存在しません"⟩

def closedRec (n : Nat) : LotteryResult :=
  ⟨n, "スキップ(終了)", "抽選" ++ toString n ++ "は受付終了しています"⟩

def compRec (n : Nat) : LotteryResult :=
  ⟨n, "スキップ(完了)", "抽選" ++ toString n ++ "は受付完了しています"⟩

def succRec (n : Nat) : LotteryResult :=
  ⟨n, "成功", "抽選" ++ toString n ++ "の処理が成功しました"⟩

def failRec (n : Nat) : LotteryResult :=
  ⟨n, "失敗", "抽選" ++ toString n ++ "の処理が失敗しました"⟩

def errRec (n : Nat) (msg : String) : LotteryResult :=
  ⟨n, "失敗", "抽選" ++ toString n ++ "の処理でエラーが発生しました: " ++ msg.take 100⟩

def interruptedRec (n : Nat) : LotteryResult :=
  ⟨n, "中断", "抽選" ++ toString n ++ "の処理がユーザーによって中断されました"⟩

def unknownRec (n : Nat) (s : String) : LotteryResult :=
  ⟨n, "不明", "抽選" ++ toString n ++ "のステータスが不明です: " ++ s⟩

/-- Outcome of the inner `while lottery_index < len(selected_lotteries)`
loop: completed normally, broke out with `reload_occurred = True`, or a
`StopIteration` propagating out (carrying the results recorded so far). -/
inductive InnerOut where
  | done (completed : List Nat) (results : List LotteryResult)
  | reload (completed : List Nat) (results : List LotteryResult)
  | stop (results : List LotteryResult)
  deriving Repr

/-- The inner loop (lines 2070-2264).  For each selected number: skip if
already completed; look up the status `(status_text, exists)`; record
存在しない when absent; skip silently when the status text is `None` or
empty; record per the 受付終了/受付完了/受付中/other branches; for an open
item run the entry sub-flow and afterwards the popup handler, breaking out
with a reload when it reports one. -/
def innerLoop (pe : PassEnv) :
    List Nat → List Nat → List LotteryResult → InnerOut
  | [], completed, results => .done completed results
  | n :: rest, completed, results =>
    if n ∈ completed then innerLoop pe rest completed results
    else
      match pe.status n with
      | (_, false) => innerLoop pe rest completed (results ++ [notExistRec n])
      | (none, true) => innerLoop pe rest completed results
      | (some s, true) =>
        if s = "" then innerLoop pe rest completed results
        else if s = "受付終了" then
          innerLoop pe rest completed (results ++ [closedRec n])
        else if s = "受付完了" then
          innerLoop pe rest (completed ++ [n]) (results ++ [compRec n])
        else if s = "受付中" then
          match pe.entry n with
          | .reloadNeeded => .reload completed results
          | .ok =>
            if pe.popAfterEntry n then
              .reload (completed ++ [n]) (results ++ [succRec n])
            else innerLoop pe rest (completed ++ [n]) (results ++ [succRec n])
          | .failed =>
            if pe.popAfterEntry n then .reload completed (results ++ [failRec n])
            else innerLoop pe rest completed (results ++ [failRec n])
          | .errored msg =>
            if pe.popAfterEntry n then .reload completed (results ++ [errRec n msg])
            else innerLoop pe rest completed (results ++ [errRec n msg])
          | .stopped => .stop (results ++ [interruptedRec n])
        else innerLoop pe rest completed (results ++ [unknownRec n s])

/-- The `(exists and status_text == "受付中")` test used by the three
verification loops. -/
def isOpenPair : Option String × Bool → Bool
  | (some "受付中", true) => true
  | _ => false

/-- Lines 2296-2300: flip the first recorded result of item `n` whose
status is 成功 to 失敗 (`break` after the first match). -/
def flipFirstSuccess (n : Nat) : List LotteryResult → List LotteryResult
  | [] => []
  | r :: rs =>
    if r.lottery = n ∧ r.status = "成功" then
      ⟨r.lottery, "失敗", "抽選" ++ toString n ++ "は再確認時に「受付中」でした"⟩ :: rs
    else r :: flipFirstSuccess n rs

/-- Lines 2448-2453: find the first recorded result of item `n`
(`break` on the first lottery match); flip it only if its status is 成功. -/
def flipFinal (n : Nat) : List LotteryResult → List LotteryResult
  | [] => []
  | r :: rs =>
    if r.lottery = n then
      if r.status = "成功" then
        ⟨r.lottery, "失敗", "抽選" ++ toString n ++ "は最終確認時に「受付中」でした"⟩ :: rs
      else r :: rs
    else r :: flipFinal n rs

/-- The re-verification loop after a completed pass (lines 2286-2300):
walks the selected numbers; any item re-reading as 受付中 sets
`has_open_lotteries`, and if it was in `completed_lotteries` it is removed
and its 成功 entry flipped to 失敗. -/
def verifyLoop (pe : PassEnv) :
    List Nat → List Nat → List LotteryResult → Bool →
    Bool × List Nat × List LotteryResult
  | [], completed, results, hasOpen => (hasOpen, completed, results)
  | n :: rest, completed, results, hasOpen =>
    if isOpenPair (pe.verify n) then
      if n ∈ completed then
        verifyLoop pe rest (completed.erase n) (flipFirstSuccess n results) true
      else verifyLoop pe rest completed results true
    else verifyLoop pe rest completed results hasOpen

/-- The final verification inside the all-completed branch (lines
2313-2321): false iff some selected item still reads 受付中. -/
def fv1All (pe : PassEnv) (selected : List Nat) : Bool :=
  selected.all fun n => !isOpenPair (pe.fv1 n)

/-- The final verification after the 成功 determination (lines 2436-2453):
walks all selected numbers (no break), clearing the flag and flipping
results for any item that still reads 受付中. -/
def fv2Loop (pe : PassEnv) :
    List Nat → Bool → List Nat → List LotteryResult →
    Bool × List Nat × List LotteryResult
  | [], allV, completed, results => (allV, completed, results)
  | n :: rest, allV, completed, results =>
    if isOpenPair (pe.fv2 n) then
      fv2Loop pe rest false (completed.erase n) (flipFinal n results)
    else fv2Loop pe rest allV completed results

/-- The per-result phrase appended to `detail_parts` (lines 2358-2381). -/
def detailPart (r : LotteryResult) : Option String :=
  if r.status = "成功" then some ("抽選" ++ toString r.lottery ++ "成功")
  else if r.status = "失敗" then some ("抽選" ++ toString r.lottery ++ "失敗")
  else if r.status = "スキップ(終了)" then some ("抽選" ++ toString r.lottery ++ "受付終了")
  else if r.status = "スキップ(完了)" then some ("抽選" ++ toString r.lottery ++ "受付完了")
  else if r.status = "存在しない" then some ("抽選" ++ toString r.lottery ++ "存在しない")
  else if r.status = "中断" then some ("抽選" ++ toString r.lottery ++ "中断")
  else if r.status = "不明" then some ("抽選" ++ toString r.lottery ++ "不明")
  else none

/-- The status-determination block (lines 2347-2430): flags over the
recorded statuses, the 、-joined detail message, and the
中断 / 失敗-group / all-成功-or-スキップ(完了) / fallback-失敗 chain. -/
def determineFinalStatus (results : List LotteryResult) : String × String :=
  let hasInterrupted := results.any fun r => r.status = "中断"
  let hasFailure := results.any fun r => r.status = "失敗"
  let hasSkippedClosed := results.any fun r => r.status = "スキップ(終了)"
  let hasNotExist := results.any fun r => r.status = "存在しない"
  let parts := String.intercalate "、" (results.filterMap detailPart)
  if hasInterrupted then ("中断", "中断: " ++ parts)
  else if hasFailure || hasSkippedClosed || hasNotExist then ("失敗", "失敗: " ++ parts)
  else if results.all (fun r => r.status = "成功" ∨ r.status = "スキップ(完了)") then
    ("成功", "成功")
  else ("失敗", "失敗: " ++ parts)

/-- Outcome of `_process_all_lotteries`: the returned dict, or a
`StopIteration` propagating out of it (with the internally recorded
results, which the caller then discards). -/
inductive ProcOutcome where
  | returned (results : List LotteryResult) (finalStatus message : String)
  | stopped (resultsSoFar : List LotteryResult)
  deriving DecidableEq, Repr

/-- `max_retry_attempts` (line 2030). -/
def maxRetryAttempts : Nat := 10

/-- The processing after a pass completed without reload (lines
2271-2472), as a function of the pass environment and of the continuation
`retry` used for the `retry_attempt += 1; continue` paths: the
re-verification loop, the all-completed branch with its final
verification, and otherwise the status determination followed (in its 成功
case only) by the second final verification. -/
def afterPass (pe : PassEnv) (selected : List Nat) (pass : Nat)
    (completed : List Nat) (results : List LotteryResult) (fs fm : String)
    (retry : List Nat → List LotteryResult → String → String → ProcOutcome) :
    ProcOutcome :=
  let v := verifyLoop pe selected completed results false
  if v.1 then retry v.2.1 v.2.2 fs fm
  else if selected.length ≤ (selected.filter (fun n => decide (n ∈ v.2.1))).length then
    if fv1All pe selected then .returned v.2.2 "成功" "成功"
    else retry v.2.1 v.2.2 fs fm
  else
    let d := determineFinalStatus v.2.2
    if d.1 = "成功" then
      let w := fv2Loop pe selected true v.2.1 v.2.2
      if w.1 then .returned w.2.2 "成功" "成功"
      else if pass < maxRetryAttempts - 1 then retry w.2.1 w.2.2 "成功" "成功"
      else .returned w.2.2 "失敗" "失敗: 最終確認時に「受付中」の抽選が残っていました"
    else .returned v.2.2 d.1 d.2

def outerLoop (env : Nat → PassEnv) (selected : List Nat) :
    Nat → Nat → List Nat → List LotteryResult → String → String → ProcOutcome
  | 0, _, _, results, fs, fm => .returned results fs fm
  | fuel + 1, pass, completed, results, fs, fm =>
    let pe := env pass
    match innerLoop pe selected completed results with
    | .stop rs => .stopped rs
    | .reload c r => outerLoop env selected fuel (pass + 1) c r fs fm
    | .done c r =>
      afterPass pe selected pass c r fs fm
        (fun c' r' fs' fm' => outerLoop env selected fuel (pass + 1) c' r' fs' fm')

/-- Lines 2020-2024: `None`/empty defaults to `[1]`, then
`sorted(set(selected_lotteries))`. -/
def normalizeSelected : Option (List Nat) → List Nat
  | none => [1]
  | some l => if l.isEmpty then [1] else (l.dedup).insertionSort (· ≤ ·)

/-- `set_selected_lotteries` (lines 56-59):
`sorted(lottery_numbers) if lottery_numbers else [1]`. -/
def setSelectedLotteries : Option (List Nat) → List Nat
  | none => [1]
  | some l => if l.isEmpty then [1] else l.insertionSort (· ≤ ·)

/-- `_process_all_lotteries(driver, wait, selected_lotteries)`. -/
def processAllLotteries (sel : Option (List Nat)) (env : Nat → PassEnv) : ProcOutcome :=
  outerLoop env (normalizeSelected sel) maxRetryAttempts 0 [] []
    "失敗" "処理中にエラーが発生しました"

/-- The result list carried by a `ProcOutcome`. -/
def batchResults : ProcOutcome → List LotteryResult
  | .returned rs _ _ => rs
  | .stopped rs => rs

/-! ### `lottery_begin` (lines 1108-1701): login loop and batch wrapper -/

/-- Observation of one outer login attempt, as classified by lines
1121-1320: `_attempt_login_with_captcha` success; `(False, True)`
authentication failure; the OTP sub-flow with its logged-in flag and
whether the browser is still on the `login-mfa` page afterwards; still on
the login page with/without an explicit failure message; or redirected
away (treated as success). -/
inductive AttemptObs where
  | loginSuccess
  | authFailedRetry
  | otpRequired (loggedIn stillOnMfa : Bool)
  | noOtpStillLoginFailure
  | noOtpStillLoginAmbiguous
  | noOtpRedirected
  deriving DecidableEq, Repr

/-- Whether the attempt sets `login_success = True` and breaks. -/
def attemptSucceeds : AttemptObs → Bool
  | .loginSuccess => true
  | .authFailedRetry => false
  | .otpRequired loggedIn _ => loggedIn
  | .noOtpStillLoginFailure => false
  | .noOtpStillLoginAmbiguous => false
  | .noOtpRedirected => true

/-- The message of the exception raised when the last attempt fails
(lines 1136, 1281, 1291, 1305, 1315). -/
def attemptFailMsg (email : String) : AttemptObs → String
  | .authFailedRetry => "Authentication failed after 3 attempts for email: " ++ email
  | .otpRequired _ true =>
    "Authentication failed after 3 attempts (OTP processing failed) for email: " ++ email
  | .otpRequired _ false =>
    "Authentication failed after 3 attempts (including OTP failures) for email: " ++ email
  | .noOtpStillLoginFailure => "Authentication failed after 3 attempts for email: " ++ email
  | .noOtpStillLoginAmbiguous => "Login verification failed after 3 attempts for email: " ++ email
  | _ => ""

/-- `max_login_attempts` (line 1113). -/
def maxLoginAttempts : Nat := 3

/-- Result of the login loop: authenticated, or the raised exception's
message. -/
inductive LoginResult where
  | ok
  | err (msg : String)
  deriving DecidableEq, Repr

/-- The `for attempt in range(1, max_login_attempts + 1)` loop (lines
1116-1320): first successful attempt breaks; a failed attempt retries
while attempts remain and otherwise raises. -/
def loginLoopGo (email : String) (obs : Nat → AttemptObs) : Nat → Nat → LoginResult
  | 0, _ => .ok
  | fuel + 1, a =>
    if attemptSucceeds (obs a) then .ok
    else if a < maxLoginAttempts then loginLoopGo email obs fuel (a + 1)
    else .err (attemptFailMsg email (obs a))

def loginLoop (email : String) (obs : Nat → AttemptObs) : LoginResult :=
  loginLoopGo email obs maxLoginAttempts 1

/-- Environment of `lottery_begin` outside the batch itself: the login
attempt observations and whether the final login-status check at lines
1339-1343 reports a failure message. -/
structure BeginEnv where
  email : String
  attempts : Nat → AttemptObs
  finalCheckFailure : Bool

/-- `lottery_begin`: login loop, final verification, then
`_process_all_lotteries`; `StopIteration` is caught at line 1684 and
returns 中断 with an empty results list, any other exception is caught at
line 1692 and returns 失敗 with an empty results list and the message
`'ログインエラー: ' + str(e)[:100]`. -/
def lotteryBeginRun (be : BeginEnv) (sel : Option (List Nat))
    (env : Nat → PassEnv) : SessionOutcome :=
  match loginLoop be.email be.attempts with
  | .err msg => ⟨[], "失敗", "ログインエラー: " ++ msg.take 100⟩
  | .ok =>
    if be.finalCheckFailure then
      ⟨[], "失敗", "ログインエラー: " ++
        ("Authentication failed after all attempts for email: " ++ be.email).take 100⟩
    else
      match processAllLotteries sel env with
      | .returned rs fs m => ⟨rs, fs, m⟩
      | .stopped _ => ⟨[], "中断", "ユーザーによって中断されました"⟩

/-! ### Auxiliary predicates used by the theorems -/

/-- A status query answer that leads to a recorded entry: the item does not
exist, or its status text is present and nonempty (Python truthiness of
`status_text` at line 2111). -/
def decisiveB : Option String × Bool → Bool
  | (_, false) => true
  | (none, true) => false
  | (some s, true) => !(s == "")

/-- The single result entry the inner loop records for a fresh item `n`,
as a function of the pass environment (empty for the silently-skipped and
loop-breaking cases). -/
def recordsOf (pe : PassEnv) (n : Nat) : List LotteryResult :=
  match pe.status n with
  | (_, false) => [notExistRec n]
  | (none, true) => []
  | (some s, true) =>
    if s = "" then []
    else if s = "受付終了" then [closedRec n]
    else if s = "受付完了" then [compRec n]
    else if s = "受付中" then
      match pe.entry n with
      | .ok => [succRec n]
      | .failed => [failRec n]
      | .errored msg => [errRec n msg]
      | _ => []
    else [unknownRec n s]

/-- Whether processing item `n` in this pass adds it to
`completed_lotteries`: it reads 受付完了, or it reads 受付中 and its entry
sub-flow returns `True`. -/
def completesItem (pe : PassEnv) (n : Nat) : Bool :=
  match pe.status n with
  | (some s, true) =>
    if s = "受付完了" then true
    else if s = "受付中" then
      match pe.entry n with
      | .ok => true
      | _ => false
    else false
  | _ => false

/-- A pass step on item `n` that neither skips silently nor breaks the
pass: the status answer is decisive, and when the item is open its entry
sub-flow returns an ordinary outcome with no popup reload afterwards. -/
def passStepSafe (pe : PassEnv) (n : Nat) : Bool :=
  decisiveB (pe.status n) &&
    (match pe.status n with
     | (some "受付中", true) =>
       (match pe.entry n with
        | .reloadNeeded => false
        | .stopped => false
        | _ => !pe.popAfterEntry n)
     | _ => true)

/-! ### Concrete environments used as witnesses and counterexamples -/

/-- A pass in which every item reads 受付完了 at every status query. -/
def peAllCompleted : PassEnv :=
  { status := fun _ => (some "受付完了", true)
    entry := fun _ => .ok
    popAfterEntry := fun _ => false
    verify := fun _ => (some "受付完了", true)
    fv1 := fun _ => (some "受付完了", true)
    fv2 := fun _ => (some "受付完了", true) }

def envAllCompleted : Nat → PassEnv := fun _ => peAllCompleted

/-- Pass 0 of the restart scenario: the item is open, its submission
fails, and the popup handler afterwards reports a reload. -/
def peFailThenReload : PassEnv :=
  { status := fun _ => (some "受付中", true)
    entry := fun _ => .failed
    popAfterEntry := fun _ => true
    verify := fun _ => (some "受付完了", true)
    fv1 := fun _ => (some "受付完了", true)
    fv2 := fun _ => (some "受付完了", true) }

/-- The restart scenario: after the pass-0 reload, the item reads 受付完了
on every later pass. -/
def envFailThenCompleted : Nat → PassEnv
  | 0 => peFailThenReload
  | _ => peAllCompleted

/-- Cancellation scenario: all items open; item 1 succeeds, item 2's
processing observes the user cancellation (`StopIteration`). -/
def peStopAtTwo : PassEnv :=
  { status := fun _ => (some "受付中", true)
    entry := fun n => if n = 2 then .stopped else .ok
    popAfterEntry := fun _ => false
    verify := fun _ => (some "受付完了", true)
    fv1 := fun _ => (some "受付完了", true)
    fv2 := fun _ => (some "受付完了", true) }

def envStopAtTwo : Nat → PassEnv := fun _ => peStopAtTwo

/-- A mixed single-pass environment: item 1 closed, item 2 absent,
item 3 open and failing, item 4 open and succeeding. -/
def peMixed : PassEnv :=
  { status := fun n =>
      if n = 1 then (some "受付終了", true)
      else if n = 2 then (none, false)
      else (some "受付中", true)
    entry := fun n => if n = 3 then .failed else .ok
    popAfterEntry := fun _ => false
    verify := fun _ => (some "受付終了", true)
    fv1 := fun _ => (some "受付終了", true)
    fv2 := fun _ => (some "受付終了", true) }

def envMixed : Nat → PassEnv := fun _ => peMixed

/-- Login environment whose three attempts all fail with an explicit
authentication failure. -/
def beAllFail : BeginEnv :=
  { email := "user@example.com", attempts := fun _ => .authFailedRetry
    finalCheckFailure := false }

/-- Login environment that succeeds on the first attempt. -/
def beLoginOk : BeginEnv :=
  { email := "user@example.com", attempts := fun _ => .loginSuccess
    finalCheckFailure := false }

/-- A syntactically valid site key (20 characters). -/
def demoSiteKey : String := "0123456789abcdefghij"

/-- Provider behaviour for the poll-sequence scenario: submission accepted
at once, then `processing`, `processing`, `ready(token)`. -/
def pollSeqEnv (t : String) : SolveEnv :=
  { submit := fun _ => .taskOk
    poll := fun _ i =>
      if i = 0 then .processing
      else if i = 1 then .processing
      else if i = 2 then .ready (some t)
      else .processing }

/-- Handler scenario of the two-reloads property: pop05 absent, pop04
displayed with exactly the fatal-exception text, still fatal after the
first reload, gone after the second. -/
def envTwoReloads : PopEnv :=
  { pop05Displayed := false
    pop05Msg := none
    pop04Displayed := true
    pop04Msg := some exceptionText
    reload05Ok := fun _ => true
    pop05DispAfter := fun _ => false
    pop05MsgAfter := fun _ => none
    reload04Ok := fun _ => true
    pop04DispAfter := fun t => decide (t = 1)
    pop04MsgAfter := fun _ => some exceptionText }

/-- A post-login pop04 overlay whose fatal message never clears and whose
reloads always succeed. -/
def beginPopPersistEnv : BeginPopEnv :=
  { disp := fun _ => true
    msg := fun _ => some exceptionText
    reloadOk := fun _ => true
    dispAfter := fun _ => true
    msgAfter := fun _ => some exceptionText }

/-! ## Theorems -/

/-- The reload loop performs at most `count + fuel` reload attempts. -/
theorem handlerReloadLoop_count_le (ro da : Nat → Bool) (ma : Nat → Option String)
    (needle : String) (maxR : Nat) :
    ∀ fuel t count, (handlerReloadLoop ro da ma needle maxR fuel t count).2 ≤ count + fuel := by
  intro fuel
  induction fuel with
  | zero => intro t count; simp [handlerReloadLoop]
  | succ f ih =>
    intro t count
    simp only [handlerReloadLoop]
    rcases hro : ro t with _ | _
    · simp only [Bool.false_eq_true, if_false]
      by_cases ht : t < maxR
      · simp only [ht, if_true]
        exact le_trans (ih (t + 1) (count + 1)) (by omega)
      · simp only [ht, if_false]
        omega
    · simp only [if_true]
      rcases hda : da t with _ | _
      · simp only [Bool.false_eq_true, if_false]
        omega
      · simp only [if_true]
        rcases hma : ma t with _ | m
        · simp only [hma]
          omega
        · simp only [hma]
          by_cases hm : strContains m needle = true
          · simp only [hm, if_true]
            by_cases ht : t < maxR
            · simp only [ht, if_true]
              exact le_trans (ih (t + 1) (count + 1)) (by omega)
            · simp only [ht, if_false]
              omega
          · rw [if_neg hm]
            omega

/-- With a fuel of `f + 2` and at least two allowed attempts, an overlay
whose fatal message persists through the first reload and is gone after
the second makes the loop stop after exactly two reload attempts,
reporting a reload. -/
theorem handlerReloadLoop_clears_after_two (ro da : Nat → Bool) (ma : Nat → Option String)
    (f maxR : Nat) (hmax : 1 < maxR)
    (hr1 : ro 1 = true) (hd1 : da 1 = true) (hm1 : ma 1 = some exceptionText)
    (hr2 : ro 2 = true) (hd2 : da 2 = false) :
    handlerReloadLoop ro da ma exceptionText maxR (f + 2) 1 0 = (true, 2) := by
  have hc : strContains exceptionText exceptionText = true := by decide
  show handlerReloadLoop ro da ma exceptionText maxR (f + 1 + 1) 1 0 = (true, 2)
  simp only [handlerReloadLoop, hr1, hd1, hm1, hr2, hd2, hc, if_true,
    Bool.false_eq_true, if_false, hmax, Nat.zero_add]

/-- C6: when the overlay message exactly matches the fatal-exception text
on two consecutive checks (the initial one and the one after the first
reload) and the overlay is gone on the third check, the recovery handler
performs exactly 2 reload attempts and reports `reloaded = true`. -/
theorem two_matching_checks_two_reloads (env : PopEnv)
    (h5 : env.pop05Displayed = false)
    (h4 : env.pop04Displayed = true)
    (hm : env.pop04Msg = some exceptionText)
    (hr1 : env.reload04Ok 1 = true)
    (hd1 : env.pop04DispAfter 1 = true)
    (hm1 : env.pop04MsgAfter 1 = some exceptionText)
    (hr2 : env.reload04Ok 2 = true)
    (hd2 : env.pop04DispAfter 2 = false) :
    checkAndHandlePopExceptions env 5 = (true, 2) := by
  have hc : strContains exceptionText exceptionText = true := by decide
  unfold checkAndHandlePopExceptions
  simp only [h5, h4, hm, hc, Bool.false_eq_true, if_false, if_true]
  exact handlerReloadLoop_clears_after_two env.reload04Ok env.pop04DispAfter
    env.pop04MsgAfter 3 5 (by norm_num) hr1 hd1 hm1 hr2 hd2

/-- Witness for `two_matching_checks_two_reloads` at the concrete
environment `envTwoReloads`. -/
theorem two_matching_checks_two_reloads_witness :
    checkAndHandlePopExceptions envTwoReloads 5 = (true, 2) :=
  two_matching_checks_two_reloads envTwoReloads rfl rfl rfl rfl rfl rfl rfl rfl

/-- C5: the handler function `_check_and_handle_pop_exceptions` performs
at most 5 reload attempts per call, but the inline copy of the recovery
loop in `lottery_begin` (line 1372, `max_reload_attempts = 6`, against its
own comments saying 5) performs 6 reload attempts on an overlay whose
fatal message never clears. -/
theorem lotteryBegin_pop_loop_performs_six_reloads :
    (∀ env : PopEnv, (checkAndHandlePopExceptions env 5).2 ≤ 5) ∧
    lotteryBeginPopLoop beginPopPersistEnv = 6 := by
  constructor
  · intro env
    unfold checkAndHandlePopExceptions
    rcases h5 : env.pop05Displayed with _ | _
    · simp only [Bool.false_eq_true, if_false]
      rcases h4 : env.pop04Displayed with _ | _
      · simp
      · simp only [if_true]
        rcases hm : env.pop04Msg with _ | m
        · simp
        · by_cases hc : strContains m exceptionText = true
          · simp only [hc, if_true]
            exact le_trans (handlerReloadLoop_count_le _ _ _ _ 5 5 1 0) (by omega)
          · simp [hc]
    · simp only [if_true]
      rcases hm : env.pop05Msg with _ | m
      · simp
      · by_cases hc : strContains m timeoutText = true
        · simp only [hc, if_true]
          exact le_trans (handlerReloadLoop_count_le _ _ _ _ 5 5 1 0) (by omega)
        · simp [hc]
  · decide

/-- The setup step accepts the demo site key and the in-set score 0.9. -/
theorem solveSetup_demo_nine : solveSetup true demoSiteKey 0.9 = .ok 0.9 := by
  unfold solveSetup
  rw [if_neg (by simp), if_neg (by decide), if_pos (by norm_num)]

/-- C7 counterexample: with the provider answering
`processing, processing, ready("T")`, the solver returns the token only
after 3 polls of the result endpoint, not 2. -/
theorem solve_poll_count_counterexample :
    solveRecaptcha true demoSiteKey 0.9 (pollSeqEnv "T") = (.ok "T", 3) ∧ (3 : Nat) ≠ 2 := by
  refine ⟨?_, by decide⟩
  unfold solveRecaptcha
  rw [solveSetup_demo_nine]
  rfl

/-- C7 amended: on the response sequence
`[processing, processing, ready(token)]` the solver returns the token
after exactly 3 polls of the result endpoint beyond the submission (two
observing `processing`, the third delivering the token). -/
theorem solve_returns_after_three_polls (t : String) :
    solveRecaptcha true demoSiteKey 0.9 (pollSeqEnv t) = (.ok t, 3) := by
  unfold solveRecaptcha
  rw [solveSetup_demo_nine]
  rfl

/-- C9: a `min_score` outside `{0.3, 0.7, 0.9}` is coerced to 0.9 and the
solve proceeds exactly as a call with 0.9 would; it is never rejected for
the out-of-set value. -/
theorem minScore_out_of_set_coerced (m : ℚ) (k : String)
    (hm : ¬(m = 0.3 ∨ m = 0.7 ∨ m = 0.9)) (hk : ¬(k = "" ∨ k.length < 20)) :
    solveSetup true k m = .ok 0.9 ∧
    ∀ env : SolveEnv, solveRecaptcha true k m env = solveRecaptcha true k 0.9 env := by
  have h1 : solveSetup true k m = .ok 0.9 := by
    unfold solveSetup
    rw [if_neg (by simp), if_neg hk, if_neg hm]
  have h2 : solveSetup true k 0.9 = .ok 0.9 := by
    unfold solveSetup
    rw [if_neg (by simp), if_neg hk, if_pos (by norm_num)]
  refine ⟨h1, fun env => ?_⟩
  unfold solveRecaptcha
  rw [h1, h2]

/-- Witness for `minScore_out_of_set_coerced` at `min_score = 1/2`. -/
theorem minScore_out_of_set_coerced_witness :
    solveSetup true demoSiteKey (1/2) = .ok 0.9 ∧
    ∀ env : SolveEnv,
      solveRecaptcha true demoSiteKey (1/2) env = solveRecaptcha true demoSiteKey 0.9 env :=
  minScore_out_of_set_coerced (1/2) demoSiteKey (by norm_num) (by decide)

/-- C10: a `None` or empty selection defaults to processing exactly the
single item numbered 1, both in `set_selected_lotteries` and in
`_process_all_lotteries`. -/
theorem default_selection_processes_item_one :
    setSelectedLotteries none = [1] ∧ setSelectedLotteries (some []) = [1] ∧
    normalizeSelected none = [1] ∧ normalizeSelected (some []) = [1] ∧
    ∀ env : Nat → PassEnv, processAllLotteries none env = processAllLotteries (some [1]) env :=
  ⟨rfl, rfl, rfl, rfl, fun _ => rfl⟩

/-- Unfolding of the outer loop when the pass is cut short by a
`StopIteration`. -/
theorem outerLoop_stop (env : Nat → PassEnv) (selected : List Nat)
    (fuel pass : Nat) (c : List Nat) (r rs : List LotteryResult) (fs fm : String)
    (h : innerLoop (env pass) selected c r = .stop rs) :
    outerLoop env selected (fuel + 1) pass c r fs fm = .stopped rs := by
  simp only [outerLoop, h]

/-- Unfolding of the outer loop when the pass breaks out for a reload. -/
theorem outerLoop_reload (env : Nat → PassEnv) (selected : List Nat)
    (fuel pass : Nat) (c c' : List Nat) (r r' : List LotteryResult) (fs fm : String)
    (h : innerLoop (env pass) selected c r = .reload c' r') :
    outerLoop env selected (fuel + 1) pass c r fs fm =
      outerLoop env selected fuel (pass + 1) c' r' fs fm := by
  simp only [outerLoop, h]

/-- Unfolding of the outer loop when the pass completes normally. -/
theorem outerLoop_done (env : Nat → PassEnv) (selected : List Nat)
    (fuel pass : Nat) (c c' : List Nat) (r r' : List LotteryResult) (fs fm : String)
    (h : innerLoop (env pass) selected c r = .done c' r') :
    outerLoop env selected (fuel + 1) pass c r fs fm =
      afterPass (env pass) selected pass c' r' fs fm
        (fun c2 r2 fs2 fm2 => outerLoop env selected fuel (pass + 1) c2 r2 fs2 fm2) := by
  simp only [outerLoop, h]

/-- The normalised selection has no duplicates. -/
theorem normalizeSelected_nodup (x : Option (List Nat)) : (normalizeSelected x).Nodup := by
  cases x with
  | none => simp [normalizeSelected]
  | some l =>
    by_cases h : l.isEmpty
    · simp [normalizeSelected, h]
    · simp only [normalizeSelected, h, Bool.false_eq_true, if_false]
      exact ((List.perm_insertionSort _ _).nodup_iff).mpr (List.nodup_dedup l)

/-- The re-verification loop changes nothing when no selected item reads
受付中. -/
theorem verifyLoop_no_open (pe : PassEnv) :
    ∀ (lst c : List Nat) (r : List LotteryResult) (b : Bool),
      (∀ n ∈ lst, isOpenPair (pe.verify n) = false) →
      verifyLoop pe lst c r b = (b, c, r) := by
  intro lst
  induction lst with
  | nil => intro c r b _; rfl
  | cons n rest ih =>
    intro c r b h
    have hn := h n (List.mem_cons_self n rest)
    simp only [verifyLoop, hn, Bool.false_eq_true, if_false]
    exact ih c r b fun m hm => h m (List.mem_cons_of_mem n hm)

/-- The all-completed final verification passes when no selected item
reads 受付中. -/
theorem fv1All_no_open (pe : PassEnv) (lst : List Nat)
    (h : ∀ n ∈ lst, isOpenPair (pe.fv1 n) = false) : fv1All pe lst = true := by
  simp only [fv1All, List.all_eq_true]
  intro n hn
  simp [h n hn]

/-- The post-determination final verification changes nothing when no
selected item reads 受付中. -/
theorem fv2Loop_no_open (pe : PassEnv) :
    ∀ (lst : List Nat) (allV : Bool) (c : List Nat) (r : List LotteryResult),
      (∀ n ∈ lst, isOpenPair (pe.fv2 n) = false) →
      fv2Loop pe lst allV c r = (allV, c, r) := by
  intro lst
  induction lst with
  | nil => intro allV c r _; rfl
  | cons n rest ih =>
    intro allV c r h
    have hn := h n (List.mem_cons_self n rest)
    simp only [fv2Loop, hn, Bool.false_eq_true, if_false]
    exact ih allV c r fun m hm => h m (List.mem_cons_of_mem n hm)

/-- One pass of the inner loop over fresh, safely-processed items records
exactly `recordsOf` per item and completes exactly the `completesItem`
ones. -/
theorem innerLoop_records (pe : PassEnv) :
    ∀ (rest completed : List Nat) (acc : List LotteryResult),
      rest.Nodup → (∀ n ∈ rest, n ∉ completed) →
      (∀ n ∈ rest, passStepSafe pe n = true) →
      innerLoop pe rest completed acc =
        .done (completed ++ rest.filter (fun n => completesItem pe n))
          (acc ++ rest.flatMap (recordsOf pe)) := by
  intro rest
  induction rest with
  | nil => intro completed acc _ _ _; simp [innerLoop]
  | cons n rest ih =>
    intro completed acc hnd hdisj hsafe
    have hmem : n ∉ completed := hdisj n (List.mem_cons_self n rest)
    have hsafen := hsafe n (List.mem_cons_self n rest)
    have hndr : rest.Nodup := (List.nodup_cons.mp hnd).2
    have hnr : n ∉ rest := (List.nodup_cons.mp hnd).1
    have hdisjr : ∀ m ∈ rest, m ∉ completed := fun m hm =>
      hdisj m (List.mem_cons_of_mem n hm)
    have hsafer : ∀ m ∈ rest, passStepSafe pe m = true := fun m hm =>
      hsafe m (List.mem_cons_of_mem n hm)
    have hdisjr' : ∀ m ∈ rest, m ∉ completed ++ [n] := by
      intro m hm
      simp only [List.mem_append, List.mem_singleton]
      rintro (hc | hc)
      · exact hdisjr m hm hc
      · exact hnr (hc ▸ hm)
    simp only [innerLoop]
    rw [if_neg hmem]
    rcases hst : pe.status n with ⟨st, ex⟩
    rcases ex with _ | _
    · -- the item does not exist
      have hci : completesItem pe n = false := by
        unfold completesItem
        rw [hst]
        rcases st with _ | s <;> rfl
      have hrec : recordsOf pe n = [notExistRec n] := by
        unfold recordsOf
        rw [hst]
        rcases st with _ | s <;> rfl
      rcases st with _ | s <;>
        simp [ih completed _ hndr hdisjr hsafer, List.filter_cons, hci, hrec]
    · rcases st with _ | s
      · -- exists but status text is None: excluded by `passStepSafe`
        exfalso
        unfold passStepSafe at hsafen
        rw [hst] at hsafen
        simp [decisiveB] at hsafen
      · -- exists with a status text `s`
        unfold passStepSafe at hsafen
        rw [hst] at hsafen
        have hsplit := (Bool.and_eq_true _ _).mp hsafen
        have hs : ¬(s = "") := by
          have := hsplit.1
          simp [decisiveB] at this
          exact this
        dsimp only
        rw [if_neg hs]
        by_cases h1 : s = "受付終了"
        · subst h1
          rw [if_pos rfl]
          have hci : completesItem pe n = false := by
            simp [completesItem, hst]
          have hrec : recordsOf pe n = [closedRec n] := by
            simp [recordsOf, hst]
          simp [ih completed _ hndr hdisjr hsafer, List.filter_cons, hci, hrec]
        · rw [if_neg h1]
          by_cases h2 : s = "受付完了"
          · subst h2
            rw [if_pos rfl]
            have hci : completesItem pe n = true := by
              simp [completesItem, hst]
            have hrec : recordsOf pe n = [compRec n] := by
              simp [recordsOf, hst]
            simp [ih (completed ++ [n]) _ hndr hdisjr' hsafer,
              List.filter_cons, hci, hrec]
          · rw [if_neg h2]
            by_cases h3 : s = "受付中"
            · subst h3
              rw [if_pos rfl]
              have hb := hsplit.2
              rcases he : pe.entry n with _ | _ | _ | msg | _
              · rw [he] at hb
                simp at hb
              · -- entry returns True
                rw [he] at hb
                simp only [Bool.not_eq_true'] at hb
                dsimp only
                rw [if_neg (by rw [hb]; simp)]
                have hci : completesItem pe n = true := by
                  simp [completesItem, hst, he]
                have hrec : recordsOf pe n = [succRec n] := by
                  simp [recordsOf, hst, he]
                simp [ih (completed ++ [n]) _ hndr hdisjr' hsafer,
                  List.filter_cons, hci, hrec]
              · -- entry returns False
                rw [he] at hb
                simp only [Bool.not_eq_true'] at hb
                dsimp only
                rw [if_neg (by rw [hb]; simp)]
                have hci : completesItem pe n = false := by
                  simp [completesItem, hst, he]
                have hrec : recordsOf pe n = [failRec n] := by
                  simp [recordsOf, hst, he]
                simp [ih completed _ hndr hdisjr hsafer, List.filter_cons, hci, hrec]
              · -- entry raises an ordinary exception
                rw [he] at hb
                simp only [Bool.not_eq_true'] at hb
                dsimp only
                rw [if_neg (by rw [hb]; simp)]
                have hci : completesItem pe n = false := by
                  simp [completesItem, hst, he]
                have hrec : recordsOf pe n = [errRec n msg] := by
                  simp [recordsOf, hst, he]
                simp [ih completed _ hndr hdisjr hsafer, List.filter_cons, hci, hrec]
              · rw [he] at hb
                simp at hb
            · rw [if_neg h3]
              have hci : completesItem pe n = false := by
                simp [completesItem, hst, h2, h3]
              have hrec : recordsOf pe n = [unknownRec n s] := by
                simp [recordsOf, hst, hs, h1, h2, h3]
              simp [ih completed _ hndr hdisjr hsafer, List.filter_cons, hci, hrec]

/-- A safe pass step on a fresh item records exactly one entry, and that
entry carries the item's number. -/
theorem recordsOf_singleton (pe : PassEnv) (n : Nat)
    (h : passStepSafe pe n = true) :
    ∃ r, recordsOf pe n = [r] ∧ r.lottery = n := by
  unfold passStepSafe at h
  unfold recordsOf
  rcases hst : pe.status n with ⟨st, ex⟩
  rw [hst] at h
  rcases ex with _ | _
  · rcases st with _ | s <;> exact ⟨notExistRec n, rfl, rfl⟩
  · rcases st with _ | s
    · exfalso
      simp [decisiveB] at h
    · have hsplit := (Bool.and_eq_true _ _).mp h
      have hs : ¬(s = "") := by
        have := hsplit.1
        simp [decisiveB] at this
        exact this
      dsimp only
      rw [if_neg hs]
      by_cases h1 : s = "受付終了"
      · subst h1
        rw [if_pos rfl]
        exact ⟨closedRec n, rfl, rfl⟩
      · rw [if_neg h1]
        by_cases h2 : s = "受付完了"
        · subst h2
          rw [if_pos rfl]
          exact ⟨compRec n, rfl, rfl⟩
        · rw [if_neg h2]
          by_cases h3 : s = "受付中"
          · subst h3
            rw [if_pos rfl]
            have hb := hsplit.2
            rcases he : pe.entry n with _ | _ | _ | msg | _
            · rw [he] at hb
              simp at hb
            · exact ⟨succRec n, rfl, rfl⟩
            · exact ⟨failRec n, rfl, rfl⟩
            · exact ⟨errRec n msg, rfl, rfl⟩
            · rw [he] at hb
              simp at hb
          · rw [if_neg h3]
            exact ⟨unknownRec n s, rfl, rfl⟩

/-- No entry of the flattened record list carries a number outside the
item list. -/
theorem countP_flatMap_zero (f : Nat → List LotteryResult) :
    ∀ (lst : List Nat), (∀ m ∈ lst, ∃ r, f m = [r] ∧ r.lottery = m) →
      ∀ n, n ∉ lst → ((lst.flatMap f).countP fun r => r.lottery == n) = 0 := by
  intro lst
  induction lst with
  | nil => intro _ n _; rfl
  | cons m rest ih =>
    intro h n hn
    have hne : n ≠ m := fun hh => hn (by simp [hh])
    have hnr : n ∉ rest := fun hh => hn (List.mem_cons_of_mem m hh)
    obtain ⟨r, hr, hl⟩ := h m (List.mem_cons_self m rest)
    have hmn : (r.lottery == n) = false := by
      rw [hl]
      exact beq_eq_false_iff_ne.mpr fun hh => hne (hh ▸ rfl)
    simp only [List.flatMap_cons, List.countP_append, hr]
    rw [ih (fun a ha => h a (List.mem_cons_of_mem m ha)) n hnr]
    simp [List.countP_cons, hmn]

/-- Each selected number occurs on exactly one entry of the flattened
record list. -/
theorem countP_flatMap_one (f : Nat → List LotteryResult) :
    ∀ (lst : List Nat), lst.Nodup →
      (∀ m ∈ lst, ∃ r, f m = [r] ∧ r.lottery = m) →
      ∀ n ∈ lst, ((lst.flatMap f).countP fun r => r.lottery == n) = 1 := by
  intro lst
  induction lst with
  | nil => intro _ _ n hn; exact absurd hn (List.not_mem_nil n)
  | cons m rest ih =>
    intro hnd h n hn
    have hmr : m ∉ rest := (List.nodup_cons.mp hnd).1
    have hndr : rest.Nodup := (List.nodup_cons.mp hnd).2
    have hrest : ∀ a ∈ rest, ∃ r, f a = [r] ∧ r.lottery = a :=
      fun a ha => h a (List.mem_cons_of_mem m ha)
    obtain ⟨r, hr, hl⟩ := h m (List.mem_cons_self m rest)
    simp only [List.flatMap_cons, List.countP_append, hr]
    rcases List.mem_cons.mp hn with hnm | hnr
    · subst hnm
      rw [countP_flatMap_zero f rest hrest n hmr]
      simp [List.countP_cons, hl]
    · have hmn : (r.lottery == n) = false := by
        rw [hl]
        exact beq_eq_false_iff_ne.mpr fun hh => hmr (hh ▸ hnr)
      rw [ih hndr hrest n hnr]
      simp [List.countP_cons, hmn]

/-- Flattening singleton record lists is a map. -/
theorem flatMap_eq_map (f : Nat → List LotteryResult) (g : Nat → LotteryResult) :
    ∀ (lst : List Nat), (∀ n ∈ lst, f n = [g n]) → lst.flatMap f = lst.map g := by
  intro lst
  induction lst with
  | nil => intro _; rfl
  | cons m rest ih =>
    intro h
    simp only [List.flatMap_cons, List.map_cons, h m (List.mem_cons_self m rest),
      ih fun a ha => h a (List.mem_cons_of_mem m ha)]
    rfl

/-- C8: when every selected item's status label is 受付完了 at every
status query, the batch concludes with finalStatus 成功 and the fixed
message 成功, whatever the selection is; each item is recorded
スキップ(完了). -/
theorem all_completed_yields_success (e : Nat → PassEnv) (sel : List Nat)
    (h : ∀ p n, (e p).status n = (some "受付完了", true) ∧
      (e p).verify n = (some "受付完了", true) ∧
      (e p).fv1 n = (some "受付完了", true)) :
    processAllLotteries (some sel) e =
      .returned ((normalizeSelected (some sel)).map compRec) "成功" "成功" := by
  have hsafe : ∀ n, passStepSafe (e 0) n = true := fun n => by
    simp [passStepSafe, (h 0 n).1, decisiveB]
  have hrec : ∀ n, recordsOf (e 0) n = [compRec n] := fun n => by
    simp [recordsOf, (h 0 n).1]
  have hci : ∀ n, completesItem (e 0) n = true := fun n => by
    simp [completesItem, (h 0 n).1]
  have hnd := normalizeSelected_nodup (some sel)
  set sel' := normalizeSelected (some sel) with hsel
  have hin := innerLoop_records (e 0) sel' [] [] hnd (by simp) fun n _ => hsafe n
  have hfilter : sel'.filter (fun n => completesItem (e 0) n) = sel' :=
    List.filter_eq_self.mpr fun a _ => hci a
  have hfm : sel'.flatMap (recordsOf (e 0)) = sel'.map compRec :=
    flatMap_eq_map _ _ sel' fun n _ => hrec n
  rw [hfilter, hfm] at hin
  simp only [List.nil_append] at hin
  unfold processAllLotteries
  rw [show maxRetryAttempts = 9 + 1 from rfl, ← hsel]
  rw [outerLoop_done e sel' 9 0 [] sel' [] (sel'.map compRec)
    "失敗" "処理中にエラーが発生しました" hin]
  unfold afterPass
  rw [verifyLoop_no_open (e 0) sel' sel' (sel'.map compRec) false
    (fun n _ => by rw [(h 0 n).2.1]; rfl)]
  dsimp only
  rw [if_neg (by simp)]
  have hf2 : sel'.filter (fun n => decide (n ∈ sel')) = sel' :=
    List.filter_eq_self.mpr fun a ha => by simpa using ha
  rw [hf2, if_pos (le_refl _)]
  rw [fv1All_no_open (e 0) sel' fun n _ => by rw [(h 0 n).2.2]; rfl]
  rw [if_pos rfl]

/-- Witness for `all_completed_yields_success` on three items selected in
scrambled order. -/
theorem all_completed_yields_success_witness :
    processAllLotteries (some [3, 1, 2]) envAllCompleted =
      .returned ((normalizeSelected (some [3, 1, 2])).map compRec) "成功" "成功" :=
  all_completed_yields_success envAllCompleted [3, 1, 2] fun _ _ => ⟨rfl, rfl, rfl⟩

/-- C2 amended: within a batch that finishes in a single pass — every
selected item's status query is decisive, no entry sub-flow forces a
reload or observes a cancellation, no popup reload occurs, and no
verification re-reads an item as 受付中 — the result list contains exactly
one entry per selected number.  (After a forced restart an item can
accumulate a second entry, and an unreadable status yields none; see the
counterexample.) -/
theorem one_result_per_selected_item (e : Nat → PassEnv) (sel : List Nat)
    (hsafe : ∀ n ∈ normalizeSelected (some sel), passStepSafe (e 0) n = true)
    (hver : ∀ n ∈ normalizeSelected (some sel), isOpenPair ((e 0).verify n) = false)
    (hfv1 : ∀ n ∈ normalizeSelected (some sel), isOpenPair ((e 0).fv1 n) = false)
    (hfv2 : ∀ n ∈ normalizeSelected (some sel), isOpenPair ((e 0).fv2 n) = false) :
    ∀ n ∈ normalizeSelected (some sel),
      ((batchResults (processAllLotteries (some sel) e)).countP
        fun r => r.lottery == n) = 1 := by
  have hnd := normalizeSelected_nodup (some sel)
  set sel' := normalizeSelected (some sel) with hsel
  have hin := innerLoop_records (e 0) sel' [] [] hnd (by simp) hsafe
  simp only [List.nil_append] at hin
  have hbatch : ∃ fs fm, processAllLotteries (some sel) e =
      .returned (sel'.flatMap (recordsOf (e 0))) fs fm := by
    unfold processAllLotteries
    rw [show maxRetryAttempts = 9 + 1 from rfl, ← hsel]
    rw [outerLoop_done e sel' 9 0 []
      (sel'.filter fun n => completesItem (e 0) n) []
      (sel'.flatMap (recordsOf (e 0)))
      "失敗" "処理中にエラーが発生しました" hin]
    unfold afterPass
    rw [verifyLoop_no_open (e 0) sel' _ _ false hver]
    dsimp only
    rw [if_neg (by simp)]
    by_cases hlen : sel'.length ≤
        (sel'.filter fun n =>
          decide (n ∈ sel'.filter fun m => completesItem (e 0) m)).length
    · rw [if_pos hlen, fv1All_no_open (e 0) sel' hfv1, if_pos rfl]
      exact ⟨"成功", "成功", rfl⟩
    · rw [if_neg hlen]
      by_cases hd : (determineFinalStatus (sel'.flatMap (recordsOf (e 0)))).1 = "成功"
      · rw [if_pos hd]
        rw [fv2Loop_no_open (e 0) sel' true _ _ hfv2]
        dsimp only
        rw [if_pos rfl]
        exact ⟨"成功", "成功", rfl⟩
      · rw [if_neg hd]
        exact ⟨_, _, rfl⟩
  obtain ⟨fs, fm, hb⟩ := hbatch
  intro n hn
  rw [hb]
  exact countP_flatMap_one _ sel' hnd
    (fun m hm => recordsOf_singleton (e 0) m (hsafe m hm)) n hn

/-- Witness for `one_result_per_selected_item` on the mixed single-pass
environment, for selected item 3. -/
theorem one_result_per_selected_item_witness :
    ((batchResults (processAllLotteries (some [4, 1, 2, 3]) envMixed)).countP
      fun r => r.lottery == 3) = 1 :=
  one_result_per_selected_item envMixed [4, 1, 2, 3]
    (by decide) (by decide) (by decide) (by decide) 3 (by decide)

/-- The first component of the status determination, written with the
bare aggregate conditions. -/
theorem determineFinalStatus_fst (results : List LotteryResult) :
    (determineFinalStatus results).1 =
      if results.any (fun r => r.status = "中断") then "中断"
      else if (results.any (fun r => r.status = "失敗") ||
          results.any (fun r => r.status = "スキップ(終了)") ||
          results.any (fun r => r.status = "存在しない")) then "失敗"
      else if results.all (fun r => decide (r.status = "成功" ∨ r.status = "スキップ(完了)")) then
        "成功"
      else "失敗" := by
  unfold determineFinalStatus
  dsimp only
  split_ifs <;> rfl

/-- C1 amended: the status-determination step itself is a pure function of
the recorded statuses with the claimed precedence: any 中断 entry gives
中断; otherwise any 失敗 / スキップ(終了) / 存在しない entry gives 失敗;
otherwise all entries 成功 / スキップ(完了) give 成功; any remaining case
gives 失敗.  (The batch-level early exits can bypass this step; see the
counterexample.) -/
theorem verdict_precedence (results : List LotteryResult) :
    ((∃ r ∈ results, r.status = "中断") → (determineFinalStatus results).1 = "中断") ∧
    ((¬∃ r ∈ results, r.status = "中断") →
      (∃ r ∈ results, r.status = "失敗" ∨ r.status = "スキップ(終了)" ∨ r.status = "存在しない") →
      (determineFinalStatus results).1 = "失敗") ∧
    ((¬∃ r ∈ results, r.status = "中断") →
      (¬∃ r ∈ results, r.status = "失敗" ∨ r.status = "スキップ(終了)" ∨ r.status = "存在しない") →
      (∀ r ∈ results, r.status = "成功" ∨ r.status = "スキップ(完了)") →
      (determineFinalStatus results).1 = "成功") ∧
    ((¬∃ r ∈ results, r.status = "中断") →
      (¬∃ r ∈ results, r.status = "失敗" ∨ r.status = "スキップ(終了)" ∨ r.status = "存在しない") →
      (¬∀ r ∈ results, r.status = "成功" ∨ r.status = "スキップ(完了)") →
      (determineFinalStatus results).1 = "失敗") := by
  have hI : (results.any fun r => r.status = "中断") = true ↔
      ∃ r ∈ results, r.status = "中断" := by
    simp [List.any_eq_true]
  have hF : (results.any (fun r => r.status = "失敗") ||
      results.any (fun r => r.status = "スキップ(終了)") ||
      results.any (fun r => r.status = "存在しない")) = true ↔
      ∃ r ∈ results, r.status = "失敗" ∨ r.status = "スキップ(終了)" ∨ r.status = "存在しない" := by
    simp only [Bool.or_eq_true, List.any_eq_true, decide_eq_true_eq]
    constructor
    · rintro ((⟨r, hr, h⟩ | ⟨r, hr, h⟩) | ⟨r, hr, h⟩)
      · exact ⟨r, hr, Or.inl h⟩
      · exact ⟨r, hr, Or.inr (Or.inl h)⟩
      · exact ⟨r, hr, Or.inr (Or.inr h)⟩
    · rintro ⟨r, hr, h | h | h⟩
      · exact Or.inl (Or.inl ⟨r, hr, h⟩)
      · exact Or.inl (Or.inr ⟨r, hr, h⟩)
      · exact Or.inr ⟨r, hr, h⟩
  have hA : (results.all fun r => decide (r.status = "成功" ∨ r.status = "スキップ(完了)")) = true ↔
      ∀ r ∈ results, r.status = "成功" ∨ r.status = "スキップ(完了)" := by
    simp [List.all_eq_true]
  refine ⟨fun h => ?_, fun h1 h2 => ?_, fun h1 h2 h3 => ?_, fun h1 h2 h3 => ?_⟩
  · rw [determineFinalStatus_fst, if_pos (hI.mpr h)]
  · rw [determineFinalStatus_fst, if_neg (fun hh => h1 (hI.mp hh)),
      if_pos (hF.mpr h2)]
  · rw [determineFinalStatus_fst, if_neg (fun hh => h1 (hI.mp hh)),
      if_neg (fun hh => h2 (hF.mp hh)), if_pos (hA.mpr h3)]
  · rw [determineFinalStatus_fst, if_neg (fun hh => h1 (hI.mp hh)),
      if_neg (fun hh => h2 (hF.mp hh)), if_neg (fun hh => h3 (hA.mp hh))]

/-- Witness for `verdict_precedence`: a batch with one 中断 entry is
classified 中断. -/
theorem verdict_precedence_witness :
    (determineFinalStatus [⟨1, "中断", "x"⟩]).1 = "中断" :=
  (verdict_precedence [⟨1, "中断", "x"⟩]).1 ⟨⟨1, "中断", "x"⟩, by simp, rfl⟩

/-- C1 counterexample: in the restart scenario the finished batch returns
finalStatus 成功 although a 失敗 entry is recorded, while the
status-determination function maps these recorded statuses to 失敗 — the
returned verdict is not the claimed pure function of the recorded
statuses. -/
theorem final_verdict_ignores_recorded_failure :
    processAllLotteries (some [1]) envFailThenCompleted =
      .returned [failRec 1, compRec 1] "成功" "成功" ∧
    (determineFinalStatus [failRec 1, compRec 1]).1 = "失敗" ∧
    ("成功" : String) ≠ "失敗" :=
  ⟨rfl, by decide, by decide⟩

/-- C2 counterexample: in the restart scenario the batch records two
result entries for the single selected number 1. -/
theorem duplicate_entries_after_restart :
    ((batchResults (processAllLotteries (some [1]) envFailThenCompleted)).countP
      fun r => r.lottery == 1) = 2 ∧ (2 : Nat) ≠ 1 :=
  ⟨by decide, by decide⟩

/-- C3 counterexample: when cancellation is observed while item 2 is being
processed, the returned outcome has finalStatus 中断 but an empty results
list — it does not include the 中断 entry for item 2. -/
theorem interrupted_entry_discarded :
    lotteryBeginRun beLoginOk (some [1, 2, 3]) envStopAtTwo =
      ⟨[], "中断", "ユーザーによって中断されました"⟩ ∧
    ¬∃ r ∈ (lotteryBeginRun beLoginOk (some [1, 2, 3]) envStopAtTwo).results,
      r.lottery = 2 ∧ r.status = "中断" :=
  ⟨rfl, by decide⟩

/-- C3 amended: when cancellation is observed while item 2 is being
processed (items 1-3 selected, item 1 already succeeded), the orchestrator
records a 中断 entry for item 2 internally and attempts no further items,
and the returned outcome has finalStatus 中断 with an empty results list:
the internally recorded entries are discarded by the top-level handler. -/
theorem cancellation_midbatch (e : Nat → PassEnv) (be : BeginEnv)
    (h1 : (e 0).status 1 = (some "受付中", true))
    (he1 : (e 0).entry 1 = .ok)
    (hp1 : (e 0).popAfterEntry 1 = false)
    (h2 : (e 0).status 2 = (some "受付中", true))
    (he2 : (e 0).entry 2 = .stopped)
    (hb1 : attemptSucceeds (be.attempts 1) = true)
    (hb2 : be.finalCheckFailure = false) :
    processAllLotteries (some [1, 2, 3]) e = .stopped [succRec 1, interruptedRec 2] ∧
    lotteryBeginRun be (some [1, 2, 3]) e =
      ⟨[], "中断", "ユーザーによって中断されました"⟩ := by
  have hin : innerLoop (e 0) [1, 2, 3] [] [] = .stop [succRec 1, interruptedRec 2] := by
    simp [innerLoop, h1, he1, hp1, h2, he2]
  have hproc : processAllLotteries (some [1, 2, 3]) e =
      .stopped [succRec 1, interruptedRec 2] := by
    unfold processAllLotteries
    have hsel : normalizeSelected (some [1, 2, 3]) = [1, 2, 3] := rfl
    have h10 : maxRetryAttempts = 9 + 1 := rfl
    rw [hsel, h10]
    exact outerLoop_stop e [1, 2, 3] 9 0 [] [] [succRec 1, interruptedRec 2]
      "失敗" "処理中にエラーが発生しました" hin
  refine ⟨hproc, ?_⟩
  have hl : loginLoop be.email be.attempts = .ok := by
    unfold loginLoop
    show loginLoopGo be.email be.attempts (0 + 1 + 1 + 1) 1 = .ok
    simp [loginLoopGo, hb1]
  unfold lotteryBeginRun
  rw [hl, hb2, hproc]
  rfl

/-- Witness for `cancellation_midbatch` at the concrete environment
`envStopAtTwo`. -/
theorem cancellation_midbatch_witness :
    processAllLotteries (some [1, 2, 3]) envStopAtTwo =
      .stopped [succRec 1, interruptedRec 2] ∧
    lotteryBeginRun beLoginOk (some [1, 2, 3]) envStopAtTwo =
      ⟨[], "中断", "ユーザーによって中断されました"⟩ :=
  cancellation_midbatch envStopAtTwo beLoginOk rfl rfl rfl rfl rfl rfl rfl

/-- C4: when each of the 3 outer login attempts fails, the whole batch
aborts with finalStatus 失敗, an empty result list, and an outcome
independent of the lottery environment — no item is processed. -/
theorem login_exhaustion_aborts_batch (be : BeginEnv) (sel sel' : Option (List Nat))
    (env env' : Nat → PassEnv)
    (h : ∀ a, attemptSucceeds (be.attempts a) = false) :
    lotteryBeginRun be sel env =
      ⟨[], "失敗", "ログインエラー: " ++ (attemptFailMsg be.email (be.attempts 3)).take 100⟩ ∧
    lotteryBeginRun be sel env = lotteryBeginRun be sel' env' := by
  have hl : loginLoop be.email be.attempts = .err (attemptFailMsg be.email (be.attempts 3)) := by
    unfold loginLoop
    show loginLoopGo be.email be.attempts (0 + 1 + 1 + 1) 1 =
      .err (attemptFailMsg be.email (be.attempts 3))
    simp [loginLoopGo, h, maxLoginAttempts]
  constructor
  · unfold lotteryBeginRun
    rw [hl]
  · unfold lotteryBeginRun
    rw [hl]

/-- Witness for `login_exhaustion_aborts_batch` at the all-failing login
environment. -/
theorem login_exhaustion_aborts_batch_witness :
    lotteryBeginRun beAllFail (some [1, 2]) envAllCompleted =
      ⟨[], "失敗",
        "ログインエラー: " ++ (attemptFailMsg beAllFail.email (beAllFail.attempts 3)).take 100⟩ ∧
    lotteryBeginRun beAllFail (some [1, 2]) envAllCompleted =
      lotteryBeginRun beAllFail (some [5]) envStopAtTwo :=
  login_exhaustion_aborts_batch beAllFail (some [1, 2]) (some [5])
    envAllCompleted envStopAtTwo (fun _ => rfl)

end PokemonBot
